import Mathlib

/-!
Verification of the JoyaaS real-time processing pipeline
(`src/shared/realtime_processor.py`, `src/shared/realtime_api.py`).

The Python code is shallowly embedded: each Python method becomes a pure
Lean function over an explicit state record.  Python `dict`s become
insertion-ordered association lists (overwriting an existing key keeps
its position, as CPython dicts do), `collections.deque(maxlen=m)` becomes
a list truncated from the left on append, wall-clock readings and the
external Operation Set (`LayoutFixer.fix_layout`,
`AdvancedLanguageDetector.detect_language`) are oracle parameters, and
Python floats are modelled by exact rationals.  A raised-and-propagating
Python exception is an `Except.error`; exceptions that the source catches
are folded into the state (log fields), so a method that can never let an
exception escape is embedded as a total function.
-/

namespace Joyout

/-- Insertion-ordered dictionary update: overwriting an existing key keeps
its original position, a new key is appended at the end (CPython `dict`
assignment semantics). -/
def dictSet {α : Type} (k : String) (v : α) : List (String × α) → List (String × α)
  | [] => [(k, v)]
  | (k₀, v₀) :: rest => if k₀ = k then (k, v) :: rest else (k₀, v₀) :: dictSet k v rest

/-- Dictionary deletion (`del d[k]`); a no-op when the key is absent. -/
def dictRemove {α : Type} (k : String) : List (String × α) → List (String × α)
  | [] => []
  | (k₀, v₀) :: rest => if k₀ = k then rest else (k₀, v₀) :: dictRemove k rest

theorem lookup_cons {α : Type} (k k₀ : String) (v₀ : α) (rest : List (String × α)) :
    (((k₀, v₀) :: rest).lookup k) = if k = k₀ then some v₀ else rest.lookup k := by
  by_cases h : k = k₀
  · simp [List.lookup, h]
  · simp only [List.lookup]
    rw [if_neg h, show (k == k₀) = false by simp [h]]

theorem dictSet_lookup_self {α : Type} (k : String) (v : α) :
    ∀ d : List (String × α), (dictSet k v d).lookup k = some v := by
  intro d
  induction d with
  | nil => simp [dictSet, lookup_cons]
  | cons p rest ih =>
    obtain ⟨k₀, v₀⟩ := p
    by_cases h : k₀ = k
    · simp [dictSet, h, lookup_cons]
    · simp only [dictSet, if_neg h]
      rw [lookup_cons, if_neg (fun hk => h hk.symm)]
      exact ih

theorem dictSet_lookup_other {α : Type} (k k' : String) (v : α) (hne : k' ≠ k) :
    ∀ d : List (String × α), (dictSet k v d).lookup k' = d.lookup k' := by
  intro d
  induction d with
  | nil =>
    simp only [dictSet]
    rw [lookup_cons, if_neg hne]
  | cons p rest ih =>
    obtain ⟨k₀, v₀⟩ := p
    by_cases h : k₀ = k
    · subst h
      have hset : dictSet k₀ v ((k₀, v₀) :: rest) = (k₀, v) :: rest := by
        simp [dictSet]
      rw [hset, lookup_cons, lookup_cons, if_neg hne, if_neg hne]
    · simp only [dictSet, if_neg h]
      rw [lookup_cons, lookup_cons]
      by_cases h' : k' = k₀
      · simp [h']
      · rw [if_neg h', if_neg h']
        exact ih

theorem dictRemove_lookup_of_not_mem {α : Type} (k : String) :
    ∀ d : List (String × α), (∀ v, (k, v) ∉ d) → (dictRemove k d).lookup k = d.lookup k := by
  intro d
  induction d with
  | nil => intro _; rfl
  | cons p rest ih =>
    obtain ⟨k₀, v₀⟩ := p
    intro hnot
    by_cases h : k₀ = k
    · exact absurd (List.mem_cons_self (k₀, v₀) rest) (by simpa [h] using hnot v₀)
    · simp only [dictRemove, if_neg h]
      rw [lookup_cons, lookup_cons, if_neg (fun hk => h hk.symm), if_neg (fun hk => h hk.symm)]
      exact ih fun v hv => hnot v (List.mem_cons_of_mem _ hv)

/-! ### Stream Buffer (`StreamProcessor`) -/

/-- One entry of a stream's `deque` buffer: the dict
`\x7b'text': ..., 'timestamp': ..., 'metadata': ...\x7d` appended by
`StreamProcessor.add_text_chunk`. -/
structure StreamChunk where
  text : String
  timestamp : ℚ
  metadata : List (String × String)
  deriving Repr, DecidableEq

/-- The derived per-stream metadata kept in `StreamProcessor.stream_metadata`. -/
structure StreamMeta where
  last_update : ℚ
  chunk_count : ℕ
  total_length : ℕ
  deriving Repr, DecidableEq

/-- `collections.deque(maxlen := m).append c` on a deque currently holding
`xs`: the new element goes on the right and the deque keeps only its last
`m` elements, silently discarding from the left. -/
def dequeAppend (m : ℕ) (xs : List StreamChunk) (c : StreamChunk) : List StreamChunk :=
  let ys := xs ++ [c]
  ys.drop (ys.length - m)

/-- A registered stream-processing callback.  `run` models the Python
callable `callback(stream_id, text_chunk, metadata)`: it either returns
normally (`Except.ok`) or raises an exception carrying a message
(`Except.error`).  `cid` identifies the callable so invocations can be
observed. -/
structure StreamCallback where
  cid : ℕ
  run : String → String → StreamMeta → Except String Unit

/-- State of a `StreamProcessor` instance.  `invoked` records, in order,
the `cid` of every callback invocation performed so far (the observable
trace of calls into registered listeners); `errorLog` records the
`logger.error` lines emitted by `_trigger_callbacks` for listeners that
raised. -/
structure StreamProcessorState where
  max_buffer_size : ℕ
  text_streams : List (String × List StreamChunk)
  stream_metadata : List (String × StreamMeta)
  processing_callbacks : List StreamCallback
  invoked : List ℕ
  errorLog : List String

/-- The fresh state produced by `StreamProcessor.__init__` (default
`max_buffer_size = 1000`). -/
def StreamProcessor.init (m : ℕ := 1000) : StreamProcessorState :=
  { max_buffer_size := m, text_streams := [], stream_metadata := [],
    processing_callbacks := [], invoked := [], errorLog := [] }

/-- One iteration of the loop in `StreamProcessor._trigger_callbacks`:
invoke the callback with `(stream_id, text_chunk, self.stream_metadata[stream_id])`;
if it raises, catch the exception and log it (`logger.error(...)`). -/
def cbStep (sid chunk : String) (s : StreamProcessorState) (cb : StreamCallback) :
    StreamProcessorState :=
  let s1 := { s with invoked := s.invoked ++ [cb.cid] }
  match cb.run sid chunk ((s1.stream_metadata.lookup sid).getD ⟨0, 0, 0⟩) with
  | .ok _ => s1
  | .error e => { s1 with errorLog := s1.errorLog ++ ["Error in stream processing callback: " ++ e] }

/-- `StreamProcessor._trigger_callbacks`: every registered callback is
invoked in registration order; a callback that raises has its exception
caught and logged, and iteration continues with the next callback. -/
def triggerCallbacks (sid chunk : String) (st : StreamProcessorState) : StreamProcessorState :=
  st.processing_callbacks.foldl (cbStep sid chunk) st

/-- `StreamProcessor.add_text_chunk`: append the chunk to the stream's
bounded deque (a missing stream id is created empty first, as
`defaultdict` does), update the derived metadata, then trigger the
callbacks.  All listener exceptions are caught inside
`_trigger_callbacks`, so the method is total: it always returns the new
state (returns normally in Python terms). -/
def addTextChunk (now : ℚ) (st : StreamProcessorState) (sid : String) (chunk : String)
    (metadata : List (String × String)) : StreamProcessorState :=
  let old := (st.text_streams.lookup sid).getD []
  let c : StreamChunk := { text := chunk, timestamp := now, metadata := metadata }
  let newChunks := dequeAppend st.max_buffer_size old c
  let meta : StreamMeta :=
    { last_update := now, chunk_count := newChunks.length,
      total_length := (newChunks.map (fun ch => ch.text.length)).sum }
  let st1 := { st with
    text_streams := dictSet sid newChunks st.text_streams,
    stream_metadata := dictSet sid meta st.stream_metadata }
  triggerCallbacks sid chunk st1

/-- `StreamProcessor.get_stream_content`.  Python truthiness: a
`last_n_chunks` of `None` or `0` returns the whole retained buffer;
`n >= 1` returns the last `min n len` chunks (`chunks[-n:]`). -/
def getStreamContent (st : StreamProcessorState) (sid : String)
    (last_n_chunks : Option ℕ := none) : String :=
  match st.text_streams.lookup sid with
  | none => ""
  | some chunks =>
    let chunks := match last_n_chunks with
      | some n => if n ≠ 0 then chunks.drop (chunks.length - n) else chunks
      | none => chunks
    String.join (chunks.map (fun ch => ch.text))

/-- Fold a sequence of `(time, stream_id, text, metadata)` append calls
through `add_text_chunk`. -/
def runAppends (st : StreamProcessorState) :
    List (ℚ × String × String × List (String × String)) → StreamProcessorState
  | [] => st
  | (now, sid, chunk, md) :: rest => runAppends (addTextChunk now st sid chunk md) rest

theorem cbStep_spec (sid chunk : String) (s : StreamProcessorState) (cb : StreamCallback) :
    cbStep sid chunk s cb =
      { s with
        invoked := s.invoked ++ [cb.cid],
        errorLog := s.errorLog ++
          (match cb.run sid chunk ((s.stream_metadata.lookup sid).getD ⟨0, 0, 0⟩) with
            | .ok _ => []
            | .error e => ["Error in stream processing callback: " ++ e]) } := by
  rcases hr : cb.run sid chunk ((s.stream_metadata.lookup sid).getD ⟨0, 0, 0⟩) with a | e
  · simp [cbStep, hr]
  · simp [cbStep, hr]

theorem foldl_cbStep_eq (sid chunk : String) :
    ∀ (cbs : List StreamCallback) (st : StreamProcessorState),
    cbs.foldl (cbStep sid chunk) st =
      { st with
        invoked := st.invoked ++ cbs.map (fun cb => cb.cid),
        errorLog := st.errorLog ++ cbs.filterMap (fun cb =>
          match cb.run sid chunk ((st.stream_metadata.lookup sid).getD ⟨0, 0, 0⟩) with
          | .ok _ => none
          | .error e => some ("Error in stream processing callback: " ++ e)) } := by
  intro cbs
  induction cbs with
  | nil => intro st; simp
  | cons cb rest ih =>
    intro st
    rw [List.foldl_cons, cbStep_spec, ih]
    rcases hr : cb.run sid chunk ((st.stream_metadata.lookup sid).getD ⟨0, 0, 0⟩) with a | e
    · simp [hr, List.filterMap_cons]
    · simp [hr, List.filterMap_cons]

theorem triggerCallbacks_eq (sid chunk : String) (st : StreamProcessorState) :
    triggerCallbacks sid chunk st =
      { st with
        invoked := st.invoked ++ st.processing_callbacks.map (fun cb => cb.cid),
        errorLog := st.errorLog ++ st.processing_callbacks.filterMap (fun cb =>
          match cb.run sid chunk ((st.stream_metadata.lookup sid).getD ⟨0, 0, 0⟩) with
          | .ok _ => none
          | .error e => some ("Error in stream processing callback: " ++ e)) } :=
  foldl_cbStep_eq sid chunk st.processing_callbacks st

/-- The metadata record that `add_text_chunk` writes for the stream. -/
def newChunkMeta (now : ℚ) (newChunks : List StreamChunk) : StreamMeta :=
  { last_update := now, chunk_count := newChunks.length,
    total_length := (newChunks.map (fun ch => ch.text.length)).sum }

theorem addTextChunk_eq (now : ℚ) (st : StreamProcessorState) (sid chunk : String)
    (md : List (String × String)) :
    addTextChunk now st sid chunk md =
      (let newChunks := dequeAppend st.max_buffer_size ((st.text_streams.lookup sid).getD [])
        { text := chunk, timestamp := now, metadata := md }
       { st with
        text_streams := dictSet sid newChunks st.text_streams,
        stream_metadata := dictSet sid (newChunkMeta now newChunks) st.stream_metadata,
        invoked := st.invoked ++ st.processing_callbacks.map (fun cb => cb.cid),
        errorLog := st.errorLog ++ st.processing_callbacks.filterMap (fun cb =>
          match cb.run sid chunk (newChunkMeta now newChunks) with
          | .ok _ => none
          | .error e => some ("Error in stream processing callback: " ++ e)) }) := by
  show triggerCallbacks sid chunk _ = _
  rw [triggerCallbacks_eq]
  simp only [newChunkMeta, dictSet_lookup_self, Option.getD_some]

theorem dequeAppend_length_le (m : ℕ) (xs : List StreamChunk) (c : StreamChunk) :
    (dequeAppend m xs c).length ≤ m := by
  simp [dequeAppend]
  omega

theorem runAppends_capacity (m : ℕ) :
    ∀ (ops : List (ℚ × String × String × List (String × String))) (st : StreamProcessorState),
    st.max_buffer_size = m →
    (∀ sid chunks, st.text_streams.lookup sid = some chunks → chunks.length ≤ m) →
    ∀ sid chunks, (runAppends st ops).text_streams.lookup sid = some chunks →
    chunks.length ≤ m := by
  intro ops
  induction ops with
  | nil => intro st _ hinv; exact hinv
  | cons op rest ih =>
    obtain ⟨now, sid₀, chunk, md⟩ := op
    intro st hm hinv
    refine ih (addTextChunk now st sid₀ chunk md) ?_ ?_
    · rw [addTextChunk_eq]
      exact hm
    · intro sid chunks hl
      rw [addTextChunk_eq] at hl
      simp only at hl
      by_cases hsid : sid = sid₀
      · subst hsid
        rw [dictSet_lookup_self] at hl
        cases hl
        rw [hm]
        exact dequeAppend_length_le m _ _
      · rw [dictSet_lookup_other _ _ _ hsid] at hl
        exact hinv sid chunks hl

/-- C4: for every stream built by any sequence of appends on a
default-capacity (1000) `StreamProcessor`, the retained chunk count never
exceeds 1000; an append to a full stream drops the oldest chunk (and, the
embedding being total, completes without error); and `get_stream_content`
reflects exactly the retained chunks. -/
theorem stream_capacity_bound :
    (∀ (ops : List (ℚ × String × String × List (String × String))) (sid : String)
        (chunks : List StreamChunk),
        (runAppends (StreamProcessor.init 1000) ops).text_streams.lookup sid = some chunks →
        chunks.length ≤ 1000) ∧
    (∀ (xs : List StreamChunk) (c : StreamChunk), xs.length = 1000 →
        dequeAppend 1000 xs c = xs.drop 1 ++ [c]) ∧
    (∀ (ops : List (ℚ × String × String × List (String × String))) (sid : String),
        getStreamContent (runAppends (StreamProcessor.init 1000) ops) sid none =
        String.join ((((runAppends (StreamProcessor.init 1000) ops).text_streams.lookup
          sid).getD []).map (fun ch => ch.text))) := by
  refine ⟨?_, ?_, ?_⟩
  · intro ops sid chunks hl
    refine runAppends_capacity 1000 ops (StreamProcessor.init 1000) rfl ?_ sid chunks hl
    intro sid chunks h
    simp [StreamProcessor.init, List.lookup] at h
  · intro xs c h
    unfold dequeAppend
    simp only [List.length_append, List.length_singleton, h]
    rw [List.drop_append_of_le_length (by omega)]
  · intro ops sid
    unfold getStreamContent
    cases hl : (runAppends (StreamProcessor.init 1000) ops).text_streams.lookup sid with
    | none => rfl
    | some chunks => rfl

/-- C4 witness: the theorem instantiated at concrete inputs — a 2-chunk
stream satisfies the bound, and an append to an exactly-full (1000-chunk)
stream drops the oldest chunk. -/
theorem stream_capacity_bound_witness :
    ((runAppends (StreamProcessor.init 1000) [(0, "s", "a", []), (1, "s", "b", [])]
        ).text_streams.lookup "s" =
      some [{ text := "a", timestamp := 0, metadata := [] },
            { text := "b", timestamp := 1, metadata := [] }]) ∧
    ([{ text := "a", timestamp := 0, metadata := [] },
      { text := "b", timestamp := 1, metadata := [] }] : List StreamChunk).length ≤ 1000 ∧
    (List.replicate 1000 ({ text := "x", timestamp := 0, metadata := [] } : StreamChunk)).length
        = 1000 ∧
    dequeAppend 1000 (List.replicate 1000 { text := "x", timestamp := 0, metadata := [] })
        { text := "y", timestamp := 1, metadata := [] } =
      (List.replicate 1000 ({ text := "x", timestamp := 0, metadata := [] } : StreamChunk)).drop 1
        ++ [{ text := "y", timestamp := 1, metadata := [] }] :=
  have h1 : (runAppends (StreamProcessor.init 1000) [(0, "s", "a", []), (1, "s", "b", [])]
        ).text_streams.lookup "s" =
      some [{ text := "a", timestamp := 0, metadata := [] },
            { text := "b", timestamp := 1, metadata := [] }] := by decide
  ⟨h1, stream_capacity_bound.1 _ "s" _ h1, List.length_replicate 1000 _,
   stream_capacity_bound.2.1 _ _ (List.length_replicate 1000 _)⟩

/-- C5: `get_stream_content` with `last_n_chunks` unspecified or `0`
returns the concatenation of every retained chunk's text in arrival
order; with `last_n_chunks = n ≥ 1` it returns the concatenation of the
last `min n chunkCount` retained chunks; and on the spec's concrete
scenario (append `"Hello "` then `"World!"` to a fresh stream) the full
content is `"Hello World!"` and the `lastNChunks = 1` content is
`"World!"`. -/
theorem get_stream_content_spec :
    (∀ (st : StreamProcessorState) (sid : String),
        getStreamContent st sid none =
        String.join (((st.text_streams.lookup sid).getD []).map (fun ch => ch.text))) ∧
    (∀ (st : StreamProcessorState) (sid : String),
        getStreamContent st sid (some 0) = getStreamContent st sid none) ∧
    (∀ (st : StreamProcessorState) (sid : String) (n : ℕ), 1 ≤ n →
        getStreamContent st sid (some n) =
        String.join ((((st.text_streams.lookup sid).getD []).drop
          (((st.text_streams.lookup sid).getD []).length - n)).map (fun ch => ch.text))) ∧
    (getStreamContent
        (runAppends (StreamProcessor.init 1000) [(0, "s1", "Hello ", []), (1, "s1", "World!", [])])
        "s1" none = "Hello World!") ∧
    (getStreamContent
        (runAppends (StreamProcessor.init 1000) [(0, "s1", "Hello ", []), (1, "s1", "World!", [])])
        "s1" (some 1) = "World!") := by
  refine ⟨?_, ?_, ?_, by decide, by decide⟩
  · intro st sid
    unfold getStreamContent
    cases st.text_streams.lookup sid with
    | none => rfl
    | some chunks => rfl
  · intro st sid
    unfold getStreamContent
    cases st.text_streams.lookup sid with
    | none => rfl
    | some chunks => rfl
  · intro st sid n hn
    unfold getStreamContent
    cases st.text_streams.lookup sid with
    | none => simp [String.join]
    | some chunks =>
      simp only [Option.getD_some]
      rw [if_pos (by omega)]

/-- C5 witness: the `n ≥ 1` clause of the theorem applied at the concrete
two-chunk scenario with `n = 1`. -/
theorem get_stream_content_spec_witness :
    (1 : ℕ) ≤ 1 ∧
    getStreamContent
        (runAppends (StreamProcessor.init 1000) [(0, "s1", "Hello ", []), (1, "s1", "World!", [])])
        "s1" (some 1) = "World!" :=
  ⟨le_refl 1,
   (get_stream_content_spec.2.2.1
      (runAppends (StreamProcessor.init 1000) [(0, "s1", "Hello ", []), (1, "s1", "World!", [])])
      "s1" 1 (le_refl 1)).trans (by decide)⟩

/-- C6: `add_text_chunk` with any set of registered append listeners:
every listener exception is caught and logged internally — the chunk is
still appended to the stream's buffer, the stream metadata is still
updated, every listener is still invoked (in registration order, whether
or not earlier ones raised), the raised exceptions appear in the error
log, and `add_text_chunk` returns normally (the embedded function is
total, no exception escapes). -/
theorem add_text_chunk_listener_isolation (now : ℚ) (st : StreamProcessorState)
    (sid chunk : String) (md : List (String × String)) :
    (addTextChunk now st sid chunk md).text_streams.lookup sid =
      some (dequeAppend st.max_buffer_size ((st.text_streams.lookup sid).getD [])
        { text := chunk, timestamp := now, metadata := md }) ∧
    (addTextChunk now st sid chunk md).stream_metadata.lookup sid =
      some (newChunkMeta now (dequeAppend st.max_buffer_size
        ((st.text_streams.lookup sid).getD [])
        { text := chunk, timestamp := now, metadata := md })) ∧
    (addTextChunk now st sid chunk md).invoked =
      st.invoked ++ st.processing_callbacks.map (fun cb => cb.cid) ∧
    (addTextChunk now st sid chunk md).errorLog =
      st.errorLog ++ st.processing_callbacks.filterMap (fun cb =>
        match cb.run sid chunk (newChunkMeta now (dequeAppend st.max_buffer_size
            ((st.text_streams.lookup sid).getD [])
            { text := chunk, timestamp := now, metadata := md })) with
        | .ok _ => none
        | .error e => some ("Error in stream processing callback: " ++ e)) := by
  rw [addTextChunk_eq]
  refine ⟨?_, ?_, rfl, rfl⟩
  · exact dictSet_lookup_self _ _ _
  · exact dictSet_lookup_self _ _ _

/-! ### Connections and the Processing Coordinator (`WebSocketConnection`,
`RealTimeProcessor`) -/

/-- `ProcessingRequest` (the dataclass; `timestamp` is omitted — it is an
opaque wall-clock reading used by no claim). -/
structure ProcessingRequest where
  request_id : String
  text : String
  operations : List String
  user_id : Option String
  priority : ℕ
  deriving Repr, DecidableEq

/-- `ProcessingResult` (the dataclass; `timestamp` omitted as above). -/
structure ProcessingResult where
  request_id : String
  original_text : String
  processed_text : String
  operations_applied : List String
  processing_time_ms : ℚ
  confidence_score : ℚ
  suggestions : List String
  deriving Repr, DecidableEq

/-- A message written to a connection's websocket, keyed by its `type`
field and carrying the payload fields the claims inspect. -/
inductive Message where
  | welcome (connection_id : String)
  | processingResult (result : ProcessingResult)
  | streamUpdate (stream_id : String) (chunk_length : ℕ) (total_length : ℕ)
  | error (message : String) (request_id : Option String)
  deriving Repr, DecidableEq

/-- Which branch of `WebSocketConnection.send_message` ran.  The Python
method itself always returns `None`: `delivered` means the sink write
succeeded, `sinkFailed` means the write raised (caught internally, the
connection marked inactive), `skippedInactive` means the inactive guard
short-circuited and nothing was attempted. -/
inductive SendOutcome where
  | delivered
  | sinkFailed
  | skippedInactive
  deriving Repr, DecidableEq

/-- `WebSocketConnection` state.  `sinkScript` is the oracle for the
external websocket: each `send_text` consumes its head and succeeds iff
it is `true` (an exhausted script always succeeds).  `sent` collects the
messages actually written to the websocket. -/
structure WebSocketConnection where
  connection_id : String
  user_id : Option String
  created_at : ℚ
  last_activity : ℚ
  is_active : Bool
  subscriptions : List String
  sinkScript : List Bool
  sent : List Message
  deriving Repr, DecidableEq

/-- `WebSocketConnection.send_message`: when active, write the message to
the websocket and refresh `last_activity`; a raising sink is caught, the
error logged and the connection marked inactive; an inactive connection
skips the write.  The method never lets an exception escape and returns
no value (the `SendOutcome` is the embedding's record of the branch
taken). -/
def sendMessage (now : ℚ) (c : WebSocketConnection) (m : Message) :
    WebSocketConnection × SendOutcome :=
  if c.is_active then
    match c.sinkScript with
    | [] => ({ c with sent := c.sent ++ [m], last_activity := now }, .delivered)
    | ok :: rest =>
      if ok then ({ c with sinkScript := rest, sent := c.sent ++ [m], last_activity := now },
                  .delivered)
      else ({ c with sinkScript := rest, is_active := false }, .sinkFailed)
  else (c, .skippedInactive)

/-- `WebSocketConnection.send_processing_result`. -/
def sendProcessingResult (now : ℚ) (c : WebSocketConnection) (r : ProcessingResult) :
    WebSocketConnection × SendOutcome :=
  sendMessage now c (.processingResult r)

/-- `WebSocketConnection.send_error`. -/
def sendError (now : ℚ) (c : WebSocketConnection) (msg : String) (rid : Option String) :
    WebSocketConnection × SendOutcome :=
  sendMessage now c (.error msg rid)

/-- The `RealTimeProcessor.metrics` dictionary. -/
structure Metrics where
  total_requests : ℕ
  successful_requests : ℕ
  failed_requests : ℕ
  average_processing_time : ℚ
  active_connections : ℕ
  total_connections : ℕ
  deriving Repr, DecidableEq

/-- `RealTimeProcessor` state: the connection registry, the metrics, and
the processing queue (whose worker only drains it). -/
structure RealTimeProcessor where
  connections : List (String × WebSocketConnection)
  metrics : Metrics
  processing_queue : List (String × ProcessingRequest)
  deriving Repr, DecidableEq

/-- The fresh state produced by `RealTimeProcessor.__init__`. -/
def initProcessor : RealTimeProcessor :=
  { connections := [],
    metrics := { total_requests := 0, successful_requests := 0, failed_requests := 0,
                 average_processing_time := 0, active_connections := 0, total_connections := 0 },
    processing_queue := [] }

/-- `RealTimeProcessor.add_connection`: create the connection, register
it (a duplicate id overwrites in place), update the connection metrics,
then send the welcome message through the connection object (whose
post-send state the registry aliases). -/
def addConnection (now : ℚ) (st : RealTimeProcessor) (cid : String) (sinkScript : List Bool)
    (uid : Option String) : RealTimeProcessor :=
  let conn : WebSocketConnection :=
    { connection_id := cid, user_id := uid, created_at := now, last_activity := now,
      is_active := true, subscriptions := [], sinkScript := sinkScript, sent := [] }
  let conns1 := dictSet cid conn st.connections
  let m := { st.metrics with
    active_connections := conns1.length,
    total_connections := st.metrics.total_connections + 1 }
  let conn2 := (sendMessage now conn (.welcome cid)).1
  { st with connections := dictSet cid conn2 conns1, metrics := m }

/-- `RealTimeProcessor.remove_connection`: if the id is registered, mark
the connection object inactive, delete it from the registry and refresh
`active_connections`; otherwise do nothing.  The Python object survives
for any aliases, so the embedding returns it alongside the new state. -/
def removeConnection (st : RealTimeProcessor) (cid : String) :
    RealTimeProcessor × Option WebSocketConnection :=
  match st.connections.lookup cid with
  | none => (st, none)
  | some conn =>
    let conn2 := { conn with is_active := false }
    let conns := dictRemove cid st.connections
    ({ st with connections := conns,
               metrics := { st.metrics with active_connections := conns.length } },
     some conn2)

/-- The Operation Set oracle: the behaviour of the external text
transforms (`LayoutFixer.fix_layout` and
`AdvancedLanguageDetector.detect_language`); each either returns or
raises. -/
structure OperationSet where
  fixLayout : String → Except String String
  detectLanguage : String → Except String Unit

/-- The operation-application loop of
`RealTimeProcessor._process_single_request` (text-processor branch):
`fix_layout` rewrites the text, `detect_language` inspects it, and an
operation name matching neither is silently skipped.  An exception from
either transform propagates (aborting the loop). -/
def applyOperations (ops : OperationSet) :
    List String → String → List String → Except String (String × List String)
  | [], text, applied => .ok (text, applied)
  | op :: rest, text, applied =>
    if op = "fix_layout" then
      match ops.fixLayout text with
      | .ok t => applyOperations ops rest t (applied ++ ["fix_layout"])
      | .error e => .error e
    else if op = "detect_language" then
      match ops.detectLanguage text with
      | .ok _ => applyOperations ops rest text (applied ++ ["detect_language"])
      | .error e => .error e
    else
      applyOperations ops rest text applied

/-- `RealTimeProcessor._process_single_request` (text-processor branch):
apply the requested operations; on success build the `ProcessingResult`
(`processing_time_ms` is the wall-clock oracle `procTime`) and increment
`total_requests`; an operation exception propagates to the caller with
`total_requests` untouched. -/
def processSingleRequest (ops : OperationSet) (st : RealTimeProcessor)
    (req : ProcessingRequest) (procTime : ℚ) :
    Except String (ProcessingResult × RealTimeProcessor) :=
  match applyOperations ops req.operations req.text [] with
  | .error e => .error e
  | .ok (txt, applied) =>
    .ok ({ request_id := req.request_id, original_text := req.text, processed_text := txt,
           operations_applied := applied, processing_time_ms := procTime,
           confidence_score := 9 / 10, suggestions := [] },
         { st with metrics :=
            { st.metrics with total_requests := st.metrics.total_requests + 1 } })

/-- `RealTimeProcessor._update_average_processing_time`. -/
def updateAverageProcessingTime (m : Metrics) (t : ℚ) : Metrics :=
  if m.total_requests = 1 then { m with average_processing_time := t }
  else { m with average_processing_time :=
    (m.average_processing_time * ((m.total_requests : ℚ) - 1) + t) / (m.total_requests : ℚ) }

/-- `RealTimeProcessor.process_text_request` on the immediate
(`use_debounce = False`) path; the debounced path runs this same
success/failure bookkeeping when the surviving debounced task completes,
and is modelled separately by the `DebounceManager` transition system.
Unknown connection: log and return `none`.  Success: enqueue, execute,
deliver the result, bump `successful_requests`, fold the running
average.  An `Exception` from the Operation Set is caught: deliver an
`error` message carrying the request id, bump `failed_requests`, return
`none` — nothing propagates to the caller. -/
def processTextRequest (ops : OperationSet) (now : ℚ) (st : RealTimeProcessor)
    (cid : String) (req : ProcessingRequest) (procTime : ℚ) :
    RealTimeProcessor × Option ProcessingResult :=
  match st.connections.lookup cid with
  | none => (st, none)
  | some conn =>
    let st := { st with processing_queue := st.processing_queue ++ [(cid, req)] }
    match processSingleRequest ops st req procTime with
    | .ok (result, st1) =>
      let conn2 := (sendProcessingResult now conn result).1
      let st2 := { st1 with connections := dictSet cid conn2 st1.connections }
      let m1 := { st2.metrics with successful_requests := st2.metrics.successful_requests + 1 }
      ({ st2 with metrics := updateAverageProcessingTime m1 result.processing_time_ms },
       some result)
    | .error e =>
      let conn2 := (sendError now conn e (some req.request_id)).1
      let st2 := { st with connections := dictSet cid conn2 st.connections }
      ({ st2 with metrics :=
          { st2.metrics with failed_requests := st2.metrics.failed_requests + 1 } },
       none)

/-- `RealTimeProcessor.get_metrics` (returns a copy of the dict). -/
def getMetrics (st : RealTimeProcessor) : Metrics :=
  st.metrics

/-- One row of `get_connection_info()`'s `connections` array. -/
structure ConnectionInfoEntry where
  id : String
  user_id : Option String
  created_at : ℚ
  last_activity : ℚ
  subscriptions : List String
  deriving Repr, DecidableEq

/-- The dict returned by `RealTimeProcessor.get_connection_info`. -/
structure ConnectionInfo where
  active_connections : ℕ
  connections : List ConnectionInfoEntry
  deriving Repr, DecidableEq

/-- `RealTimeProcessor.get_connection_info`: `active_connections` is the
size of the whole registry, while the `connections` array lists only the
entries whose `is_active` flag is true. -/
def getConnectionInfo (st : RealTimeProcessor) : ConnectionInfo :=
  { active_connections := st.connections.length,
    connections := (st.connections.filter (fun p => p.2.is_active)).map (fun p =>
      { id := p.1, user_id := p.2.user_id, created_at := p.2.created_at,
        last_activity := p.2.last_activity, subscriptions := p.2.subscriptions }) }

/-- Fold a sequence of `(request, now, procTime)` immediate-mode calls to
`process_text_request` for one connection id through the processor. -/
def runRequests (ops : OperationSet) (cid : String) :
    RealTimeProcessor → List (ProcessingRequest × ℚ × ℚ) → RealTimeProcessor
  | st, [] => st
  | st, (req, now, t) :: rest =>
    runRequests ops cid (processTextRequest ops now st cid req t).1 rest

/-- Whether a request's operation chain runs to completion under the
given Operation Set (the request then takes the success path of
`process_text_request`; otherwise the exception path). -/
def reqOk (ops : OperationSet) (req : ProcessingRequest) : Bool :=
  match applyOperations ops req.operations req.text [] with
  | .ok _ => true
  | .error _ => false

theorem updateAverage_total (m : Metrics) (t : ℚ) :
    (updateAverageProcessingTime m t).total_requests = m.total_requests := by
  unfold updateAverageProcessingTime
  split <;> rfl

theorem updateAverage_successful (m : Metrics) (t : ℚ) :
    (updateAverageProcessingTime m t).successful_requests = m.successful_requests := by
  unfold updateAverageProcessingTime
  split <;> rfl

theorem updateAverage_failed (m : Metrics) (t : ℚ) :
    (updateAverageProcessingTime m t).failed_requests = m.failed_requests := by
  unfold updateAverageProcessingTime
  split <;> rfl

theorem processTextRequest_step (ops : OperationSet) (now : ℚ) (st : RealTimeProcessor)
    (cid : String) (req : ProcessingRequest) (t : ℚ) (conn : WebSocketConnection)
    (h : st.connections.lookup cid = some conn) :
    ((processTextRequest ops now st cid req t).1.connections.lookup cid).isSome = true ∧
    (if reqOk ops req then
      (processTextRequest ops now st cid req t).1.metrics.total_requests
          = st.metrics.total_requests + 1 ∧
      (processTextRequest ops now st cid req t).1.metrics.successful_requests
          = st.metrics.successful_requests + 1 ∧
      (processTextRequest ops now st cid req t).1.metrics.failed_requests
          = st.metrics.failed_requests
    else
      (processTextRequest ops now st cid req t).1.metrics.total_requests
          = st.metrics.total_requests ∧
      (processTextRequest ops now st cid req t).1.metrics.successful_requests
          = st.metrics.successful_requests ∧
      (processTextRequest ops now st cid req t).1.metrics.failed_requests
          = st.metrics.failed_requests + 1) := by
  rcases hap : applyOperations ops req.operations req.text [] with e | pr
  · have hok : reqOk ops req = false := by simp [reqOk, hap]
    simp [processTextRequest, h, processSingleRequest, hap, hok, dictSet_lookup_self]
  · have hok : reqOk ops req = true := by simp [reqOk, hap]
    simp [processTextRequest, h, processSingleRequest, hap, hok, dictSet_lookup_self,
      updateAverage_total, updateAverage_successful, updateAverage_failed]

theorem runRequests_counts (ops : OperationSet) (cid : String) :
    ∀ (items : List (ProcessingRequest × ℚ × ℚ)) (st : RealTimeProcessor),
    (st.connections.lookup cid).isSome = true →
    (runRequests ops cid st items).metrics.successful_requests
        = st.metrics.successful_requests
          + (items.filter (fun p => reqOk ops p.1)).length ∧
    (runRequests ops cid st items).metrics.failed_requests
        = st.metrics.failed_requests
          + (items.filter (fun p => !reqOk ops p.1)).length ∧
    (runRequests ops cid st items).metrics.total_requests
        = st.metrics.total_requests
          + (items.filter (fun p => reqOk ops p.1)).length ∧
    ((runRequests ops cid st items).connections.lookup cid).isSome = true := by
  intro items
  induction items with
  | nil =>
    intro st h
    refine ⟨?_, ?_, ?_, ?_⟩ <;>
      simp only [runRequests, List.filter_nil, List.length_nil, Nat.add_zero]
    exact h
  | cons item rest ih =>
    obtain ⟨req, now, t⟩ := item
    intro st h
    rw [Option.isSome_iff_exists] at h
    obtain ⟨conn, hc⟩ := h
    have hstep := processTextRequest_step ops now st cid req t conn hc
    obtain ⟨hs1, hs2, hs3, hs4⟩ := ih (processTextRequest ops now st cid req t).1 hstep.1
    rcases hok : reqOk ops req with _ | _
    · rw [hok, if_neg (by simp)] at hstep
      obtain ⟨_, htot, hsucc, hfail⟩ := hstep
      refine ⟨?_, ?_, ?_, hs4⟩
      · simp only [runRequests]
        rw [hs1, hsucc]
        simp [List.filter_cons, hok]
      · simp only [runRequests]
        rw [hs2, hfail]
        simp [List.filter_cons, hok]
        omega
      · simp only [runRequests]
        rw [hs3, htot]
        simp [List.filter_cons, hok]
    · rw [hok, if_pos rfl] at hstep
      obtain ⟨_, htot, hsucc, hfail⟩ := hstep
      refine ⟨?_, ?_, ?_, hs4⟩
      · simp only [runRequests]
        rw [hs1, hsucc]
        simp [List.filter_cons, hok]
        omega
      · simp only [runRequests]
        rw [hs2, hfail]
        simp [List.filter_cons, hok]
      · simp only [runRequests]
        rw [hs3, htot]
        simp [List.filter_cons, hok]
        omega

theorem addConnection_lookup_isSome (now : ℚ) (st : RealTimeProcessor) (cid : String)
    (script : List Bool) (uid : Option String) :
    ((addConnection now st cid script uid).connections.lookup cid).isSome = true := by
  simp [addConnection, dictSet_lookup_self]

theorem addConnection_request_metrics (now : ℚ) (st : RealTimeProcessor) (cid : String)
    (script : List Bool) (uid : Option String) :
    (addConnection now st cid script uid).metrics.total_requests
        = st.metrics.total_requests ∧
    (addConnection now st cid script uid).metrics.successful_requests
        = st.metrics.successful_requests ∧
    (addConnection now st cid script uid).metrics.failed_requests
        = st.metrics.failed_requests ∧
    (addConnection now st cid script uid).metrics.average_processing_time
        = st.metrics.average_processing_time :=
  ⟨rfl, rfl, rfl, rfl⟩

/-- C2 (amended): after any sequence of `process_text_request` calls on a
registered connection in which `s` requests complete successfully and
`f` requests fail, `get_metrics` reports
`successful_requests = s` and `failed_requests = f`, but
`total_requests = s` — not `s + f`: `total_requests` is incremented only
at the end of `_process_single_request`, which a failing request never
reaches. -/
theorem metrics_counts (ops : OperationSet) (cid : String) (st : RealTimeProcessor)
    (items : List (ProcessingRequest × ℚ × ℚ))
    (h : (st.connections.lookup cid).isSome = true) :
    (getMetrics (runRequests ops cid st items)).successful_requests
        = st.metrics.successful_requests + (items.filter (fun p => reqOk ops p.1)).length ∧
    (getMetrics (runRequests ops cid st items)).failed_requests
        = st.metrics.failed_requests + (items.filter (fun p => !reqOk ops p.1)).length ∧
    (getMetrics (runRequests ops cid st items)).total_requests
        = st.metrics.total_requests + (items.filter (fun p => reqOk ops p.1)).length := by
  obtain ⟨h1, h2, h3, _⟩ := runRequests_counts ops cid items st h
  exact ⟨h1, h2, h3⟩

/-- An Operation Set whose `fix_layout` raises exactly on the text
`"BOOM"`. -/
def opsDemo : OperationSet :=
  { fixLayout := fun s => if s = "BOOM" then .error "layout failure" else .ok s,
    detectLanguage := fun _ => .ok () }

/-- A `fix_layout` request carrying the given text. -/
def demoReq (txt : String) : ProcessingRequest :=
  { request_id := "r", text := txt, operations := ["fix_layout"], user_id := none, priority := 1 }

/-- The spec's metrics scenario run against the code: ten requests that
succeed and two whose `fix_layout` raises, all on one registered
connection. -/
def demoRun : RealTimeProcessor :=
  runRequests opsDemo "c1" (addConnection 0 initProcessor "c1" [] none)
    (List.replicate 10 (demoReq "hello", 0, 0) ++ List.replicate 2 (demoReq "BOOM", 0, 0))

/-- C2 counterexample: in the spec's instance (10 successful and 2 failed
requests) the code reports `total_requests = 10`, not `12` — failed
requests are not counted into `total_requests`. -/
theorem metrics_total_counterexample :
    (getMetrics demoRun).successful_requests = 10 ∧
    (getMetrics demoRun).failed_requests = 2 ∧
    (getMetrics demoRun).total_requests = 10 ∧
    ¬ (getMetrics demoRun).total_requests = 12 := by
  refine ⟨?_, ?_, ?_, ?_⟩ <;> decide

/-- C2 witness: the amended theorem applied to a concrete two-request
run (one success, one failure) on a freshly registered connection. -/
theorem metrics_counts_witness :
    ((addConnection 0 initProcessor "c1" [] none).connections.lookup "c1").isSome = true ∧
    ((getMetrics (runRequests opsDemo "c1" (addConnection 0 initProcessor "c1" [] none)
          [(demoReq "hello", 0, 0), (demoReq "BOOM", 1, 0)])).successful_requests
        = (addConnection 0 initProcessor "c1" [] none).metrics.successful_requests
          + ([(demoReq "hello", (0 : ℚ), (0 : ℚ)), (demoReq "BOOM", 1, 0)].filter
              (fun p => reqOk opsDemo p.1)).length ∧
      (getMetrics (runRequests opsDemo "c1" (addConnection 0 initProcessor "c1" [] none)
          [(demoReq "hello", 0, 0), (demoReq "BOOM", 1, 0)])).failed_requests
        = (addConnection 0 initProcessor "c1" [] none).metrics.failed_requests
          + ([(demoReq "hello", (0 : ℚ), (0 : ℚ)), (demoReq "BOOM", 1, 0)].filter
              (fun p => !reqOk opsDemo p.1)).length ∧
      (getMetrics (runRequests opsDemo "c1" (addConnection 0 initProcessor "c1" [] none)
          [(demoReq "hello", 0, 0), (demoReq "BOOM", 1, 0)])).total_requests
        = (addConnection 0 initProcessor "c1" [] none).metrics.total_requests
          + ([(demoReq "hello", (0 : ℚ), (0 : ℚ)), (demoReq "BOOM", 1, 0)].filter
              (fun p => reqOk opsDemo p.1)).length) :=
  ⟨by decide, metrics_counts opsDemo "c1" _ _ (by decide)⟩

theorem updateAverage_avg (m : Metrics) (t : ℚ) :
    (updateAverageProcessingTime m t).average_processing_time =
      if m.total_requests = 1 then t
      else (m.average_processing_time * ((m.total_requests : ℚ) - 1) + t)
             / (m.total_requests : ℚ) := by
  unfold updateAverageProcessingTime
  split <;> simp_all

theorem processTextRequest_avg_success (ops : OperationSet) (now : ℚ)
    (st : RealTimeProcessor) (cid : String) (req : ProcessingRequest) (t : ℚ)
    (conn : WebSocketConnection) (hc : st.connections.lookup cid = some conn)
    (hok : reqOk ops req = true) :
    (processTextRequest ops now st cid req t).1.metrics.average_processing_time =
      (if st.metrics.total_requests = 0 then t
       else (st.metrics.average_processing_time * (st.metrics.total_requests : ℚ) + t)
              / ((st.metrics.total_requests : ℚ) + 1)) := by
  rcases hap : applyOperations ops req.operations req.text [] with e | pr
  · rw [reqOk, hap] at hok
    cases hok
  · simp only [processTextRequest, hc, processSingleRequest, hap, updateAverage_avg]
    by_cases hT : st.metrics.total_requests = 0
    · simp [hT]
    · rw [if_neg (by omega), if_neg hT]
      push_cast
      ring_nf

theorem processTextRequest_avg_fail (ops : OperationSet) (now : ℚ)
    (st : RealTimeProcessor) (cid : String) (req : ProcessingRequest) (t : ℚ)
    (conn : WebSocketConnection) (hc : st.connections.lookup cid = some conn)
    (hok : reqOk ops req = false) :
    (processTextRequest ops now st cid req t).1.metrics.average_processing_time
        = st.metrics.average_processing_time := by
  rcases hap : applyOperations ops req.operations req.text [] with e | pr
  · simp [processTextRequest, hc, processSingleRequest, hap]
  · rw [reqOk, hap] at hok
    cases hok

theorem runRequests_avg_aux (ops : OperationSet) (cid : String) :
    ∀ (items : List (ProcessingRequest × ℚ × ℚ)) (st : RealTimeProcessor) (ts : List ℚ),
    (st.connections.lookup cid).isSome = true →
    st.metrics.total_requests = ts.length →
    st.metrics.average_processing_time
        = (if ts.length = 0 then 0 else ts.sum / (ts.length : ℚ)) →
    (runRequests ops cid st items).metrics.average_processing_time
        = (if (ts ++ items.filterMap
                (fun p => if reqOk ops p.1 then some p.2.2 else none)).length = 0
           then 0
           else (ts ++ items.filterMap
                  (fun p => if reqOk ops p.1 then some p.2.2 else none)).sum
             / ((ts ++ items.filterMap
                  (fun p => if reqOk ops p.1 then some p.2.2 else none)).length : ℚ)) := by
  intro items
  induction items with
  | nil =>
    intro st ts h htot havg
    simpa using havg
  | cons item rest ih =>
    obtain ⟨req, now, t⟩ := item
    intro st ts h htot havg
    rw [Option.isSome_iff_exists] at h
    obtain ⟨conn, hc⟩ := h
    have hstep := processTextRequest_step ops now st cid req t conn hc
    rcases hok : reqOk ops req with _ | _
    · rw [hok, if_neg (by simp)] at hstep
      obtain ⟨hsome, htot2, _, _⟩ := hstep
      have havg2 := processTextRequest_avg_fail ops now st cid req t conn hc hok
      have hfm : ((req, now, t) :: rest).filterMap
            (fun p => if reqOk ops p.1 then some p.2.2 else none)
          = rest.filterMap (fun p => if reqOk ops p.1 then some p.2.2 else none) := by
        rw [List.filterMap_cons]
        simp [hok]
      simp only [runRequests]
      rw [hfm]
      exact ih (processTextRequest ops now st cid req t).1 ts hsome
        (htot2.trans htot) (havg2.trans havg)
    · rw [hok, if_pos rfl] at hstep
      obtain ⟨hsome, htot2, _, _⟩ := hstep
      have havg2 := processTextRequest_avg_success ops now st cid req t conn hc hok
      have htot3 : (processTextRequest ops now st cid req t).1.metrics.total_requests
          = (ts ++ [t]).length := by
        rw [htot2, htot]
        simp
      have havg3 : (processTextRequest ops now st cid req t).1.metrics.average_processing_time
          = (if (ts ++ [t]).length = 0 then 0 else (ts ++ [t]).sum / ((ts ++ [t]).length : ℚ)) := by
        rw [havg2, htot]
        rcases ts with _ | ⟨t₀, ts₀⟩
        · simp
        · rw [havg]
          have hlen : ((t₀ :: ts₀).length : ℚ) ≠ 0 := by
            exact_mod_cast (Nat.cast_ne_zero (R := ℚ)).mpr (by simp)
          rw [if_neg (by simp), if_neg (by simp), if_neg (by simp)]
          rw [div_mul_cancel₀ _ hlen]
          simp [List.sum_append]
          ring
      have hfm : ((req, now, t) :: rest).filterMap
            (fun p => if reqOk ops p.1 then some p.2.2 else none)
          = t :: rest.filterMap (fun p => if reqOk ops p.1 then some p.2.2 else none) := by
        rw [List.filterMap_cons]
        simp [hok]
      simp only [runRequests]
      rw [hfm]
      rw [ih (processTextRequest ops now st cid req t).1 (ts ++ [t]) hsome htot3 havg3]
      simp [List.append_assoc]

/-- C3: at every point (after any sequence of `process_text_request`
calls on a fresh processor with one registered connection), the
`average_processing_time` reported by `get_metrics` is the arithmetic
mean of the `processing_time_ms` values of the successfully completed
requests folded in so far (`0` when there is none); failed requests do
not perturb the mean. -/
theorem average_processing_time_is_mean (ops : OperationSet) (cid : String)
    (script : List Bool) (uid : Option String)
    (items : List (ProcessingRequest × ℚ × ℚ)) :
    (getMetrics (runRequests ops cid (addConnection 0 initProcessor cid script uid) items)
        ).average_processing_time =
      (if (items.filterMap (fun p => if reqOk ops p.1 then some p.2.2 else none)).length = 0
       then 0
       else (items.filterMap (fun p => if reqOk ops p.1 then some p.2.2 else none)).sum
         / ((items.filterMap (fun p => if reqOk ops p.1 then some p.2.2 else none)).length
             : ℚ)) := by
  have h := runRequests_avg_aux ops cid items (addConnection 0 initProcessor cid script uid) []
    (addConnection_lookup_isSome 0 initProcessor cid script uid)
    ((addConnection_request_metrics 0 initProcessor cid script uid).1.trans rfl)
    (by rw [(addConnection_request_metrics 0 initProcessor cid script uid).2.2.2]; simp [initProcessor])
  simpa using h

/-! ### C7: the failure path of `process_text_request` -/

/-- An Operation Set whose transforms never raise. -/
def opsOk : OperationSet :=
  { fixLayout := fun s => .ok s, detectLanguage := fun _ => .ok () }

/-- A request naming an operation the dispatch loop does not know. -/
def unknownOpReq : ProcessingRequest :=
  { request_id := "req-1", text := "hi", operations := ["no_such_operation"],
    user_id := none, priority := 1 }

/-- The connection object created by
`addConnection 0 initProcessor "c1" [] none` (welcome already sent). -/
def connW : WebSocketConnection :=
  { connection_id := "c1", user_id := none, created_at := 0, last_activity := 0,
    is_active := true, subscriptions := [], sinkScript := [],
    sent := [Message.welcome "c1"] }

/-- C7 (amended): when processing a request for a registered connection
raises — an Operation Set exception — `process_text_request` catches it,
sends exactly one `error` message correlated by the request id to the
connection (here: healthy sink), increments `failed_requests` (leaving
`successful_requests` and `total_requests` untouched), and returns
nothing; the exception never propagates to the caller (the embedded
function is total).  An unknown operation *name*, however, is not a
failure: the dispatch loop silently skips it (see the counterexample). -/
theorem failure_sends_one_error (ops : OperationSet) (now : ℚ) (st : RealTimeProcessor)
    (cid : String) (req : ProcessingRequest) (t : ℚ) (conn : WebSocketConnection) (e : String)
    (hc : st.connections.lookup cid = some conn)
    (hact : conn.is_active = true)
    (hsink : conn.sinkScript = [])
    (hap : applyOperations ops req.operations req.text [] = .error e) :
    (processTextRequest ops now st cid req t).2 = none ∧
    (processTextRequest ops now st cid req t).1.connections.lookup cid
        = some { conn with
                 sent := conn.sent ++ [Message.error e (some req.request_id)],
                 last_activity := now } ∧
    (processTextRequest ops now st cid req t).1.metrics.failed_requests
        = st.metrics.failed_requests + 1 ∧
    (processTextRequest ops now st cid req t).1.metrics.successful_requests
        = st.metrics.successful_requests ∧
    (processTextRequest ops now st cid req t).1.metrics.total_requests
        = st.metrics.total_requests := by
  simp [processTextRequest, hc, processSingleRequest, hap, sendError, sendMessage, hact, hsink,
    dictSet_lookup_self]

/-- Whether a message is an `error` message. -/
def isErrorMsg : Message → Bool
  | .error _ _ => true
  | _ => false

/-- C7 counterexample: a request whose only operation name is unknown
does not take the failure path the claim requires — it succeeds:
`process_text_request` returns a result (with the unknown operation
skipped and `operations_applied = []`), increments
`successful_requests`, leaves `failed_requests` at 0, and sends the
connection two messages (the welcome and a `processing_result`), zero of
which are `error` messages. -/
theorem unknown_operation_succeeds :
    ((processTextRequest opsOk 1 (addConnection 0 initProcessor "c1" [] none) "c1"
        unknownOpReq 5).2.map
          (fun r => (r.request_id, r.processed_text, r.operations_applied)))
      = some ("req-1", "hi", []) ∧
    (processTextRequest opsOk 1 (addConnection 0 initProcessor "c1" [] none) "c1"
        unknownOpReq 5).1.metrics.failed_requests = 0 ∧
    (processTextRequest opsOk 1 (addConnection 0 initProcessor "c1" [] none) "c1"
        unknownOpReq 5).1.metrics.successful_requests = 1 ∧
    ((processTextRequest opsOk 1 (addConnection 0 initProcessor "c1" [] none) "c1"
        unknownOpReq 5).1.connections.lookup "c1").map
        (fun c => ((c.sent.filter (fun m => isErrorMsg m)).length, c.sent.length))
      = some (0, 2) := by
  refine ⟨?_, ?_, ?_, ?_⟩ <;> decide

/-- C7 witness: the amended theorem applied to a concrete failing
request (`fix_layout` raising on `"BOOM"`) on a freshly registered
connection. -/
theorem failure_sends_one_error_witness :
    (addConnection 0 initProcessor "c1" [] none).connections.lookup "c1" = some connW ∧
    connW.is_active = true ∧
    connW.sinkScript = [] ∧
    applyOperations opsDemo (demoReq "BOOM").operations (demoReq "BOOM").text []
        = .error "layout failure" ∧
    ((processTextRequest opsDemo 1 (addConnection 0 initProcessor "c1" [] none) "c1"
        (demoReq "BOOM") 5).2 = none ∧
      (processTextRequest opsDemo 1 (addConnection 0 initProcessor "c1" [] none) "c1"
          (demoReq "BOOM") 5).1.connections.lookup "c1"
        = some { connW with
            sent := connW.sent ++ [Message.error "layout failure" (some (demoReq "BOOM").request_id)],
            last_activity := 1 }) :=
  have h1 : (addConnection 0 initProcessor "c1" [] none).connections.lookup "c1" = some connW :=
    by decide
  have h4 : applyOperations opsDemo (demoReq "BOOM").operations (demoReq "BOOM").text []
      = .error "layout failure" := rfl
  have happ := failure_sends_one_error opsDemo 1 (addConnection 0 initProcessor "c1" [] none)
    "c1" (demoReq "BOOM") 5 connW "layout failure" h1 rfl rfl h4
  ⟨h1, rfl, rfl, h4, happ.1, happ.2.1⟩

/-! ### C8: delivery after `remove_connection` -/

theorem lookup_eq_none_of_not_mem_keys {α : Type} (k : String) :
    ∀ d : List (String × α), k ∉ d.map Prod.fst → d.lookup k = none := by
  intro d
  induction d with
  | nil => intro _; rfl
  | cons p rest ih =>
    obtain ⟨k₀, v₀⟩ := p
    intro h
    simp only [List.map_cons, List.mem_cons, not_or] at h
    rw [lookup_cons, if_neg h.1]
    exact ih h.2

theorem dictRemove_lookup_self_of_nodup {α : Type} (k : String) :
    ∀ d : List (String × α), (d.map Prod.fst).Nodup → (dictRemove k d).lookup k = none := by
  intro d
  induction d with
  | nil => intro _; rfl
  | cons p rest ih =>
    obtain ⟨k₀, v₀⟩ := p
    intro hnd
    simp only [List.map_cons, List.nodup_cons] at hnd
    by_cases h : k₀ = k
    · subst h
      simp only [dictRemove, if_pos rfl]
      exact lookup_eq_none_of_not_mem_keys k₀ rest hnd.1
    · simp only [dictRemove, if_neg h]
      rw [lookup_cons, if_neg (fun hk => h hk.symm)]
      exact ih hnd.2

/-- C8 (amended): after `remove_connection(id)` completes, an attempted
delivery to that connection is a silent no-op, not an error return: the
removed object is marked inactive, so `send_message` on it skips the
sink entirely — nothing is written, no exception escapes, and no error
value is returned (the method returns nothing; the outcome is the
inactive-skip branch, not a delivery error).  The registry no longer
resolves the id, and a later `process_text_request` for it returns
`none` with no state change. -/
theorem removed_connection_delivery (st : RealTimeProcessor) (cid : String)
    (conn : WebSocketConnection)
    (hnd : (st.connections.map Prod.fst).Nodup)
    (hc : st.connections.lookup cid = some conn) :
    (removeConnection st cid).2 = some { conn with is_active := false } ∧
    (removeConnection st cid).1.connections.lookup cid = none ∧
    (∀ (now : ℚ) (m : Message),
        sendMessage now { conn with is_active := false } m
          = ({ conn with is_active := false }, SendOutcome.skippedInactive)) ∧
    (∀ (ops : OperationSet) (now : ℚ) (req : ProcessingRequest) (t : ℚ),
        processTextRequest ops now (removeConnection st cid).1 cid req t
          = ((removeConnection st cid).1, none)) := by
  have h2 : (removeConnection st cid).1.connections.lookup cid = none := by
    simp only [removeConnection, hc]
    exact dictRemove_lookup_self_of_nodup cid st.connections hnd
  refine ⟨by simp [removeConnection, hc], h2, ?_, ?_⟩
  · intro now m
    simp [sendMessage]
  · intro ops now req t
    simp [processTextRequest, h2]

/-- C8 counterexample: delivery to a removed connection does not return
a typed `DeliveryError` — concretely, after `remove_connection("c1")`,
`send_message` on the removed object takes the silent inactive-skip
branch: the connection is inactive, nothing new is written to its sink
(still only the original welcome message), and no error value exists to
return (`send_message` returns nothing in the source). -/
theorem removed_delivery_no_error_counterexample :
    ((removeConnection (addConnection 0 initProcessor "c1" [] none) "c1").2.map
        (fun c => sendMessage 1 c (Message.error "late result" none)))
      = some ({ connection_id := "c1", user_id := none, created_at := 0, last_activity := 0,
                is_active := false, subscriptions := [], sinkScript := [],
                sent := [Message.welcome "c1"] },
              SendOutcome.skippedInactive) := by
  decide

/-- C8 witness: the amended theorem applied to the removal of a freshly
added connection. -/
theorem removed_connection_delivery_witness :
    ((addConnection 0 initProcessor "c1" [] none).connections.map Prod.fst).Nodup ∧
    (addConnection 0 initProcessor "c1" [] none).connections.lookup "c1" = some connW ∧
    (removeConnection (addConnection 0 initProcessor "c1" [] none) "c1").2
        = some { connW with is_active := false } ∧
    (removeConnection (addConnection 0 initProcessor "c1" [] none) "c1"
        ).1.connections.lookup "c1" = none :=
  have h1 : ((addConnection 0 initProcessor "c1" [] none).connections.map Prod.fst).Nodup :=
    by decide
  have h2 : (addConnection 0 initProcessor "c1" [] none).connections.lookup "c1" = some connW :=
    by decide
  have happ := removed_connection_delivery (addConnection 0 initProcessor "c1" [] none) "c1"
    connW h1 h2
  ⟨h1, h2, happ.1, happ.2.1⟩

/-! ### C10: `get_connection_info` -/

/-- C10: `get_connection_info()` reports in `active_connections` the size
of the whole registry (inactive entries included), while its
`connections` array lists only registered connections whose `is_active`
flag is true; hence with any registered-but-inactive connection (e.g.
after a sink failure) `active_connections` strictly exceeds the array's
length. -/
theorem connection_info_spec (st : RealTimeProcessor) :
    (getConnectionInfo st).active_connections = st.connections.length ∧
    (getConnectionInfo st).connections.length
        = (st.connections.filter (fun p => p.2.is_active)).length ∧
    ((∃ p ∈ st.connections, p.2.is_active = false) →
      (getConnectionInfo st).connections.length < (getConnectionInfo st).active_connections) := by
  refine ⟨rfl, by simp [getConnectionInfo], ?_⟩
  intro h
  simp only [getConnectionInfo, List.length_map]
  refine List.length_filter_lt_length_iff_exists.mpr ?_
  obtain ⟨p, hp, hia⟩ := h
  exact ⟨p, hp, by simp [hia]⟩

/-- A processor whose single connection suffered a sink failure on the
delivery of its first result: the connection is marked inactive but
stays registered. -/
def infoSt : RealTimeProcessor :=
  (processTextRequest opsOk 1 (addConnection 0 initProcessor "c1" [true, false] none) "c1"
    (demoReq "hello") 0).1

/-- C10 witness: on the concrete post-sink-failure state, the theorem's
strict inequality holds (`active_connections = 1`, array length `0`). -/
theorem connection_info_spec_witness :
    (∃ p ∈ infoSt.connections, p.2.is_active = false) ∧
    (getConnectionInfo infoSt).connections.length < (getConnectionInfo infoSt).active_connections :=
  ⟨by decide, (connection_info_spec infoSt).2.2 (by decide)⟩

/-! ### C9: the batch facade (`RealTimeAPI.handle_batch_processing`) -/

/-- The pydantic `TextProcessingRequest` body of the REST facade. -/
structure TextProcessingRequest where
  text : String
  operations : List String
  user_id : Option String
  priority : ℕ
  use_debounce : Bool
  deriving Repr, DecidableEq

/-- A raised `fastapi.HTTPException`. -/
structure HTTPError where
  status_code : ℕ
  detail : String
  deriving Repr, DecidableEq

/-- `RealTimeAPI.handle_text_processing`: register a throwaway mock
connection (uuid modelled by the `fresh` counter; its sink discards
writes and never fails), run the request through
`process_text_request`, and always remove the mock connection again
(the `finally`).  Because the connection id is fresh per call, the
debounce key is unique and a debounced REST call behaves as an
immediate one, so the embedding routes through the immediate path
regardless of `use_debounce`. -/
def handleTextProcessing (ops : OperationSet) (now : ℚ) (st : RealTimeProcessor) (fresh : ℕ)
    (r : TextProcessingRequest) (procTime : ℚ) :
    Except HTTPError ProcessingResult × RealTimeProcessor × ℕ :=
  let cid := "mock-" ++ toString fresh
  let st1 := addConnection now st cid [] r.user_id
  let pr := processTextRequest ops now st1 cid
    { request_id := "req-" ++ toString fresh, text := r.text, operations := r.operations,
      user_id := r.user_id, priority := r.priority } procTime
  let st2 := (removeConnection pr.1 cid).1
  match pr.2 with
  | some result => (.ok result, st2, fresh + 1)
  | none => (.error { status_code := 500, detail := "Processing failed" }, st2, fresh + 1)

/-- The per-request loop of `handle_batch_processing`: each request runs
through `handle_text_processing`; a request that raises is caught and
its slot dropped from the returned array. -/
def batchLoop (ops : OperationSet) (now : ℚ) :
    RealTimeProcessor → ℕ → List (TextProcessingRequest × ℚ) → List ProcessingResult →
    List ProcessingResult × RealTimeProcessor × ℕ
  | st, fresh, [], acc => (acc, st, fresh)
  | st, fresh, (r, t) :: rest, acc =>
    match handleTextProcessing ops now st fresh r t with
    | (.ok res, st2, f2) => batchLoop ops now st2 f2 rest (acc ++ [res])
    | (.error _, st2, f2) => batchLoop ops now st2 f2 rest acc

/-- `RealTimeAPI.handle_batch_processing`: a batch of more than 100
requests is rejected with the 400 validation error before anything else
runs; otherwise every request is processed and the successful results
collected. -/
def handleBatchProcessing (ops : OperationSet) (now : ℚ) (st : RealTimeProcessor) (fresh : ℕ)
    (reqs : List (TextProcessingRequest × ℚ)) :
    Except HTTPError (List ProcessingResult) × RealTimeProcessor × ℕ :=
  if reqs.length > 100 then
    (.error { status_code := 400, detail := "Batch size too large (max 100)" }, st, fresh)
  else
    let r := batchLoop ops now st fresh reqs []
    (.ok r.1, r.2.1, r.2.2)

/-- C9: a batch containing more than 100 requests is rejected with the
validation error before any processing begins: the result is the 400
error and the processor state (in particular `total_requests`, the
code's own counter of Operation Set executions) and the freshness
counter come back exactly unchanged — zero Operation Set calls are
performed for the batch. -/
theorem batch_limit_rejects (ops : OperationSet) (now : ℚ) (st : RealTimeProcessor) (fresh : ℕ)
    (reqs : List (TextProcessingRequest × ℚ)) (h : reqs.length > 100) :
    handleBatchProcessing ops now st fresh reqs
      = (.error { status_code := 400, detail := "Batch size too large (max 100)" }, st, fresh) := by
  simp [handleBatchProcessing, h]

/-- A well-formed single batch request body. -/
def batchReq : TextProcessingRequest :=
  { text := "hi", operations := ["fix_layout"], user_id := none, priority := 1,
    use_debounce := true }

/-- C9 witness: the theorem applied to a concrete batch of 101
requests. -/
theorem batch_limit_rejects_witness :
    (List.replicate 101 (batchReq, (0 : ℚ))).length > 100 ∧
    handleBatchProcessing opsOk 0 initProcessor 0 (List.replicate 101 (batchReq, 0))
      = (.error { status_code := 400, detail := "Batch size too large (max 100)" },
         initProcessor, 0) :=
  ⟨by simp, batch_limit_rejects opsOk 0 initProcessor 0 _ (by simp)⟩

/-! ### C1: `DebounceManager.debounced_process`

Each call to `debounced_process` is one caller coroutine plus one
created task; the event loop interleaves three kinds of atomic steps,
each a contiguous synchronous stretch of the source between awaits:

* `arrive key i` — call `i` runs the synchronous prefix of
  `debounced_process`: if `pending_requests` holds a task for `key`,
  `.cancel()` it (a no-op if that task already finished); create task
  `i`; `pending_requests[key] = i`; then suspend on `await task`.
* `cancelDeliver i` — the cancelled task `i` finishes as cancelled, so
  call `i`'s `await task` raises `CancelledError`; the `finally` clause
  runs `if key in pending_requests: del pending_requests[key]` — note:
  a membership test, deleting whichever task is currently pending for
  the key — and the call resolves as cancelled.
* `fire i` — task `i`'s `asyncio.sleep(delay)` elapsed without a
  cancellation, so `processor_func` runs to completion (it contains no
  further suspension points); call `i` resumes with the result and its
  `finally` again deletes whatever `pending_requests[key]` holds; the
  call resolves with the result.

`last_request_time` is bookkeeping no claim reads and is omitted. -/

/-- State of one `DebounceManager` plus the observables of its calls:
which tasks were cancelled, which executed `processor_func` (in order),
and how each call resolved. -/
structure DebounceState where
  pending : List (String × ℕ)
  taskKey : List (ℕ × String)
  cancelled : List ℕ
  executed : List ℕ
  resolvedCancelled : List ℕ
  resolvedCompleted : List ℕ
  deriving Repr, DecidableEq

/-- The scheduler steps described above. -/
inductive DebEvent where
  | arrive (key : String) (i : ℕ)
  | cancelDeliver (i : ℕ)
  | fire (i : ℕ)
  deriving Repr, DecidableEq

/-- One scheduler step of the debounce system; `none` when the event is
not enabled (fresh task ids, a task only fires when never cancelled and
not yet run, cancellation only delivered to a cancelled, unresolved
call). -/
def debStep (st : DebounceState) : DebEvent → Option DebounceState
  | .arrive key i =>
    if (st.taskKey.lookup i).isSome then none
    else
      let st1 := match st.pending.lookup key with
        | some j =>
          if j ∈ st.executed then st
          else { st with cancelled := st.cancelled ++ [j] }
        | none => st
      some { st1 with
             pending := dictSet key i st1.pending,
             taskKey := st1.taskKey ++ [(i, key)] }
  | .cancelDeliver i =>
    match st.taskKey.lookup i with
    | none => none
    | some key =>
      if i ∈ st.cancelled ∧ i ∉ st.resolvedCancelled ∧ i ∉ st.resolvedCompleted then
        some { st with
               pending := dictRemove key st.pending,
               resolvedCancelled := st.resolvedCancelled ++ [i] }
      else none
  | .fire i =>
    match st.taskKey.lookup i with
    | none => none
    | some key =>
      if i ∉ st.cancelled ∧ i ∉ st.executed then
        some { st with
               executed := st.executed ++ [i],
               pending := dictRemove key st.pending,
               resolvedCompleted := st.resolvedCompleted ++ [i] }
      else none

/-- The empty `DebounceManager` of `DebounceManager.__init__`. -/
def debInit : DebounceState :=
  { pending := [], taskKey := [], cancelled := [], executed := [],
    resolvedCancelled := [], resolvedCompleted := [] }

/-- Run a scheduler trace. -/
def runDebounce : DebounceState → List DebEvent → Option DebounceState
  | st, [] => some st
  | st, e :: rest =>
    match debStep st e with
    | none => none
    | some st2 => runDebounce st2 rest

/-- Three calls on one key, all arriving within the delay window (every
arrival precedes every timer expiry), with call 1's cancellation
delivered between the second and third arrivals — the ordinary asyncio
schedule when the calls are spaced tens of milliseconds apart inside a
500 ms window. -/
def buggyTrace : List DebEvent :=
  [.arrive "k" 1, .arrive "k" 2, .cancelDeliver 1, .arrive "k" 3, .fire 2, .fire 3]

/-- C1 (code bug), the code evaluated at the failing input: on
`buggyTrace` — N = 3 same-key calls, each arriving before the previous
call's delay has elapsed — call 1's `finally` clause deletes call 2's
entry from `pending_requests` (the clause tests membership of the key,
not identity of the task), so call 3's arrival finds nothing to cancel.
The work function then executes twice (`executed = [2, 3]`) and both
call 2 and call 3 resolve with non-cancelled results
(`resolvedCompleted = [2, 3]`), contradicting the claim that the work
function runs exactly once, by the last call, and that the earlier
N − 1 calls all resolve as cancelled. -/
theorem debounce_cleanup_bug :
    (runDebounce debInit buggyTrace).map
        (fun st => (st.executed, st.resolvedCompleted, st.resolvedCancelled))
      = some ([2, 3], [2, 3], [1]) := by
  decide

end Joyout
